import Mathlib

/-!
Verification development for the RepoCheck backend upload pipeline
(`src/controllers/uploadController.js`).

The controller is shallowly embedded here:

* JavaScript numbers are modelled by `JSN`, an exact-rational type extended
  with the IEEE-754 special values `+Infinity`, `-Infinity` and `NaN`
  (division by zero, infinity propagation and `NaN`-poisoned comparisons
  follow ECMA-262 / IEEE-754; finite arithmetic is exact rational
  arithmetic, which agrees with binary64 on every concrete input used in a
  theorem below — those inputs were chosen so that each intermediate double
  is exactly representable).
* `calculateDeviation` mirrors the source helper of the same name.
* `stage4` mirrors the "Stage 4" analysis loop of `uploadFiles`
  (missing-value branch, deviation/categorisation branch, and the
  `isLifeThreatening` flag accumulator).
* `uploadFiles` mirrors the whole controller's control flow, with the
  external collaborators (pdf rasteriser, OCR, Gemini extraction, the
  Flask scoring `fetch`) supplied as oracles describing each call's
  outcome. Its result is `(response, filesToCleanUp registry at exit,
  paths actually unlinked)`.
-/

/-- A JavaScript number: an exact rational, or one of the IEEE-754
special values produced by e.g. division by zero. -/
inductive JSN where
  | fin (q : ℚ)
  | posInf
  | negInf
  | nan
deriving DecidableEq

namespace JSN

/-- JS `<=` (false whenever an operand is `NaN`). -/
def jle : JSN → JSN → Bool
  | .nan, _ => false
  | _, .nan => false
  | .negInf, _ => true
  | _, .negInf => false
  | _, .posInf => true
  | .posInf, _ => false
  | .fin a, .fin b => decide (a ≤ b)

/-- JS `<` (false whenever an operand is `NaN`). -/
def jlt : JSN → JSN → Bool
  | .nan, _ => false
  | _, .nan => false
  | .fin a, .fin b => decide (a < b)
  | .negInf, .negInf => false
  | .negInf, _ => true
  | _, .negInf => false
  | .posInf, .posInf => false
  | .fin _, .posInf => true
  | .posInf, .fin _ => false

/-- JS `>=`. -/
def jge (a b : JSN) : Bool := jle b a

/-- JS `>`. -/
def jgt (a b : JSN) : Bool := jlt b a

/-- JS `=== 0` (`NaN === 0` is false; `-0 === 0` is true and `ℚ` has no
negative zero, so the rational comparison is faithful). -/
def jeq0 : JSN → Bool
  | .fin q => decide (q = 0)
  | _ => false

/-- JS subtraction. -/
def jsub : JSN → JSN → JSN
  | .nan, _ => .nan
  | _, .nan => .nan
  | .fin a, .fin b => .fin (a - b)
  | .posInf, .posInf => .nan
  | .negInf, .negInf => .nan
  | .posInf, _ => .posInf
  | .negInf, _ => .negInf
  | .fin _, .posInf => .negInf
  | .fin _, .negInf => .posInf

/-- JS multiplication (`0 * Infinity = NaN`). -/
def jmul : JSN → JSN → JSN
  | .nan, _ => .nan
  | _, .nan => .nan
  | .fin a, .fin b => .fin (a * b)
  | .posInf, .posInf => .posInf
  | .posInf, .negInf => .negInf
  | .negInf, .posInf => .negInf
  | .negInf, .negInf => .posInf
  | .posInf, .fin b => if 0 < b then .posInf else if b < 0 then .negInf else .nan
  | .negInf, .fin b => if 0 < b then .negInf else if b < 0 then .posInf else .nan
  | .fin a, .posInf => if 0 < a then .posInf else if a < 0 then .negInf else .nan
  | .fin a, .negInf => if 0 < a then .negInf else if a < 0 then .posInf else .nan

/-- JS division: a nonzero finite value divided by zero yields a signed
infinity, `0 / 0` yields `NaN`. -/
def jdiv : JSN → JSN → JSN
  | .nan, _ => .nan
  | _, .nan => .nan
  | .fin a, .fin b =>
      if b = 0 then (if 0 < a then .posInf else if a < 0 then .negInf else .nan)
      else .fin (a / b)
  | .posInf, .fin b => if b < 0 then .negInf else .posInf
  | .negInf, .fin b => if b < 0 then .posInf else .negInf
  | .fin _, .posInf => .fin 0
  | .fin _, .negInf => .fin 0
  | .posInf, .posInf => .nan
  | .posInf, .negInf => .nan
  | .negInf, .posInf => .nan
  | .negInf, .negInf => .nan

/-- JS `Math.round`: nearest integer, ties toward positive infinity
(so `Math.round (-62.5) = -62`); infinities and `NaN` pass through. -/
def jround : JSN → JSN
  | .fin q => .fin ((Rat.floor (q + 1 / 2) : ℤ) : ℚ)
  | .posInf => .posInf
  | .negInf => .negInf
  | .nan => .nan

/-- JS `Math.abs`. -/
def jabs : JSN → JSN
  | .fin q => .fin |q|
  | .nan => .nan
  | _ => .posInf

end JSN

/-- `calculateDeviation` from the source:
`if (value >= lower && value <= upper) return 0;` then
`limit = value > upper ? upper : lower`,
`deviation = ((value - limit) / limit) * 100`,
`return Math.round(deviation * 10) / 10`. -/
def calculateDeviation (value lower upper : JSN) : JSN :=
  if value.jge lower && value.jle upper then JSN.fin 0
  else
    let limit := if value.jgt upper then upper else lower
    let deviation := ((value.jsub limit).jdiv limit).jmul (JSN.fin 100)
    ((deviation.jmul (JSN.fin 10)).jround).jdiv (JSN.fin 10)

/-- Modelled from the spec: the spec describes the 1-decimal rounding as
"round half away from zero on the first decimal digit".  This definition
follows the spec's words and exists only to be compared against the
code's `Math.round`-based rounding. -/
def round1Spec (q : ℚ) : ℚ :=
  ((if q < 0 then -Rat.floor (-q * 10 + 1 / 2) else Rat.floor (q * 10 + 1 / 2) : ℤ) : ℚ) / 10

/-- `NORMAL_RANGES` from the source, as an ordered association list
(JS object literals preserve string-key insertion order, which is what
`Object.keys` returns). -/
def NORMAL_RANGES : List (String × ℚ × ℚ) :=
  [("Hemoglobin (g/dL)", 12.0, 16.0),
   ("RBC Count (mil/cumm)", 4.2, 5.4),
   ("PCV/HCT (%)", 36.0, 46.0),
   ("MCV (fL)", 80.0, 100.0),
   ("MCH (pg)", 27.0, 33.0),
   ("MCHC (g/dL)", 32.0, 36.0),
   ("RDW-CV (%)", 11.5, 14.5),
   ("Platelet Count (x10^3/uL)", 150, 450),
   ("WBC/TLC Count (/cumm)", 4000, 11000),
   ("Neutrophils (%)", 40, 70),
   ("Lymphocytes (%)", 20, 40),
   ("Monocytes (%)", 2, 10),
   ("Eosinophils (%)", 1, 6),
   ("Basophils (%)", 0, 1),
   ("Blood Urea (mg/dL)", 10, 40),
   ("Serum Creatinine (mg/dL)", 0.6, 1.3),
   ("Sodium (mEq/L)", 135, 145),
   ("Potassium (mEq/L)", 3.5, 5.0),
   ("Chloride (mEq/L)", 98, 107)]

/-- `ORDERED_KEYS = Object.keys(NORMAL_RANGES)`. -/
def ORDERED_KEYS : List String := NORMAL_RANGES.map (fun e => e.1)

/-- Severity category of an analysis item. -/
inductive Category where
  | green
  | yellow
  | redYellow
  | red
deriving DecidableEq

instance : BEq Category := instBEqOfDecidableEq

/-- One element of the `analysisItems` array built by Stage 4. -/
structure AnalysisItem where
  category : Category
  name : String
  deviation : JSN
deriving DecidableEq

/-- The category chain of Stage 4:
`deviation === 0` is Green; `0 < |d| <= 5` Yellow; `5 < |d| <= 20`
Red-Yellow; otherwise Red (the branch that also sets the
`isLifeThreatening` flag). -/
def categorize (d : JSN) : Category :=
  if d.jeq0 then Category.green
  else if d.jabs.jgt (JSN.fin 0) && d.jabs.jle (JSN.fin 5) then Category.yellow
  else if d.jabs.jgt (JSN.fin 5) && d.jabs.jle (JSN.fin 20) then Category.redYellow
  else Category.red

/-- The Stage 4 loop of `uploadFiles`:
`for (let i = 0; i < labValues.length && i < ORDERED_KEYS.length; i++)`.
The catalog argument carries `(name, NORMAL_RANGES[name])` pairs in
`ORDERED_KEYS` order; the `Bool` argument is the running
`isLifeThreatening` flag (initially `false`); the result pairs the
emitted items with the final flag. -/
def stage4 : List JSN → List (String × ℚ × ℚ) → Bool → List AnalysisItem × Bool
  | [], _, flag => ([], flag)
  | _ :: _, [], flag => ([], flag)
  | v :: vs, (n, lo, hi) :: cs, flag =>
    if v.jeq0 && (decide (lo ≠ 0) || decide (hi ≠ 0)) then
      let rest := stage4 vs cs flag
      (⟨Category.yellow, n ++ " (Missing/Defaulted)", JSN.fin 0⟩ :: rest.1, rest.2)
    else
      let d := calculateDeviation v (JSN.fin lo) (JSN.fin hi)
      let c := categorize d
      let rest := stage4 vs cs (flag || (c == Category.red))
      (⟨c, n, d⟩ :: rest.1, rest.2)

/-- One entry of `req.files`, as produced by the multer disk storage
(`path` under `uploads/`, the multipart `mimetype`, the stored
`filename`, and `size` in bytes). -/
structure UploadedFile where
  path : String
  mimetype : String
  filename : String
  size : Nat
deriving DecidableEq

/-- Outcome of the Gemini structured-extraction call plus the
`JSON.parse` of its text: the call can reject, the parse can throw, or
a `features` array is obtained (`structuredData.features || []` turns a
missing field into `[]`). -/
inductive GeminiResult where
  | throwsErr
  | parseErr
  | features (fs : List JSN)

/-- Outcome of the `fetch` POST to the Flask scoring backend:
2xx with a parseable JSON body, 2xx whose `.json()` throws, a non-2xx
status (only logged), or a rejected fetch (network error). -/
inductive FetchResult where
  | okParsed
  | okMalformed
  | httpErr
  | netErr
deriving DecidableEq

/-- `req.files.filter(f => f.mimetype.startsWith('image/'))`. -/
def imageFilesOf (files : List UploadedFile) : List UploadedFile :=
  files.filter (fun f => f.mimetype.startsWith "image/")

/-- `req.files.filter(f => f.mimetype === 'application/pdf')`. -/
def pdfFilesOf (files : List UploadedFile) : List UploadedFile :=
  files.filter (fun f => f.mimetype == "application/pdf")

/-- The custom validation condition of `uploadFiles`:
`(pdfFiles.length > 1) || (imageFiles.length > 3) ||
 (pdfFiles.length > 0 && imageFiles.length > 0)`. -/
def validationRejects (files : List UploadedFile) : Bool :=
  decide (1 < (pdfFilesOf files).length) || decide (3 < (imageFilesOf files).length) ||
    (decide (0 < (pdfFilesOf files).length) && decide (0 < (imageFilesOf files).length))

/-- The per-file delimiter wrapping of recognised text:
`"\n\n--- Start of ${file.filename} ---\n${text}\n--- End of ${file.filename} ---"`. -/
def wrapText (filename text : String) : String :=
  "\n\n--- Start of " ++ filename ++ " ---\n" ++ text ++ "\n--- End of " ++ filename ++ " ---"

/-- Stage 1 of `uploadFiles`: the `for (const file of req.files)` loop.
`pdfConv i` is the outcome of `convertPdfToImage` for the `i`-th file
(`none` = the conversion threw, which is caught and skips the file;
`some p` = the rasterised image path `p`, pushed onto `filesToCleanUp`
before OCR). `ocr i` is the outcome of `Tesseract.recognize` (`none` =
the promise rejected, escaping to the outer `catch`). The result is the
cleanup registry so far, with `some combinedText` on loop completion or
`none` when OCR threw. -/
def extractLoop (pdfConv ocr : Nat → Option String) :
    List UploadedFile → Nat → List String → String → List String × Option String
  | [], _, reg, acc => (reg, some acc)
  | f :: rest, i, reg, acc =>
    if f.mimetype == "application/pdf" then
      match pdfConv i with
      | none => extractLoop pdfConv ocr rest (i + 1) reg acc
      | some imgPath =>
        match ocr i with
        | none => (reg ++ [imgPath], none)
        | some text =>
          extractLoop pdfConv ocr rest (i + 1) (reg ++ [imgPath]) (acc ++ wrapText f.filename text)
    else
      match ocr i with
      | none => (reg, none)
      | some text => extractLoop pdfConv ocr rest (i + 1) reg (acc ++ wrapText f.filename text)

/-- The response sent by `uploadFiles`: the three 400 rejections, a
200 with the analysis payload, or the 500 produced by the outer
`catch`. -/
inductive Response where
  | noFiles
  | validationReject
  | noText
  | analysis (files : List (String × Nat)) (items : List AnalysisItem) (isLifeThreatening : Bool)
  | serverError
deriving DecidableEq

/-- Everything after admission control in `uploadFiles` (Stages 1-4 and
the final cleanup), given the collaborator outcomes.  Result:
`(response, filesToCleanUp registry when the invocation ends, paths
actually passed to fs.unlink)`. -/
def pipelineBody (files : List UploadedFile) (pdfConv ocr : Nat → Option String)
    (gemini : GeminiResult) (fetchR : FetchResult) : Response × List String × List String :=
  match extractLoop pdfConv ocr files 0 (files.map (fun f => f.path)) "" with
  | (reg, none) => (Response.serverError, reg, reg)
  | (reg, some combined) =>
    if combined.trim == "" then (Response.noText, reg, [])
    else
      match gemini with
      | GeminiResult.throwsErr => (Response.serverError, reg, reg)
      | GeminiResult.parseErr => (Response.serverError, reg, reg)
      | GeminiResult.features fs =>
        match fetchR with
        | FetchResult.netErr => (Response.serverError, reg, reg)
        | FetchResult.okMalformed => (Response.serverError, reg, reg)
        | _ =>
          (Response.analysis (files.map (fun f => (f.filename, f.size)))
            (stage4 fs NORMAL_RANGES false).1 (stage4 fs NORMAL_RANGES false).2, reg, reg)

/-- The whole `uploadFiles` controller.  The early 400 paths: an empty
batch, and the validation rejection (which unlinks every uploaded file
immediately and registers nothing). -/
def uploadFiles (files : List UploadedFile) (pdfConv ocr : Nat → Option String)
    (gemini : GeminiResult) (fetchR : FetchResult) : Response × List String × List String :=
  if files.isEmpty then (Response.noFiles, [], [])
  else if validationRejects files then
    (Response.validationReject, [], files.map (fun f => f.path))
  else pipelineBody files pdfConv ocr gemini fetchR

/-- A single uploaded image file used in concrete runs. -/
def demoFile : UploadedFile := ⟨"uploads/a.png", "image/png", "a.png", 100⟩

/-- Rasteriser oracle for concrete runs (never consulted for images). -/
def demoPdfConv : Nat → Option String := fun _ => none

/-- OCR oracle for concrete runs: every file yields some text. -/
def demoOcr : Nat → Option String := fun _ => some "Hemoglobin 13.5"

/-- Gemini oracle for concrete runs: one extracted feature. -/
def demoGemini : GeminiResult := GeminiResult.features [JSN.fin 13.5]

/-- A PDF upload whose rasterisation will fail. -/
def leakFile : UploadedFile := ⟨"uploads/x.pdf", "application/pdf", "x.pdf", 50⟩

/-- Default item used by positional (`getD`) statements. -/
def dItem : AnalysisItem := ⟨Category.green, "", JSN.fin 0⟩

/-- Default catalog field used by positional (`getD`) statements. -/
def dField : String × ℚ × ℚ := ("", 0, 0)

/-- A 14-entry feature vector: thirteen in-range readings followed by a
negative Basophils reading. -/
def demoVector : List JSN :=
  [JSN.fin 13.5, JSN.fin 4.8, JSN.fin 40.2, JSN.fin 90.1, JSN.fin 29.5, JSN.fin 34,
   JSN.fin 12.8, JSN.fin 250, JSN.fin 8000, JSN.fin 60, JSN.fin 30, JSN.fin 5, JSN.fin 2,
   JSN.fin (-1)]

/-- Two PDF uploads, used to exercise the rejection path. -/
def pdfFileA : UploadedFile := ⟨"uploads/p1.pdf", "application/pdf", "p1.pdf", 10⟩

/-- Second PDF upload for the rejection batch. -/
def pdfFileB : UploadedFile := ⟨"uploads/p2.pdf", "application/pdf", "p2.pdf", 11⟩

/-- A text/plain upload, outside both mime classes of the validator. -/
def txtFile : UploadedFile := ⟨"uploads/t.txt", "text/plain", "t.txt", 5⟩

namespace JSN

@[simp] lemma jle_fin_fin (a b : ℚ) : (JSN.fin a).jle (JSN.fin b) = decide (a ≤ b) := rfl

@[simp] lemma jlt_fin_fin (a b : ℚ) : (JSN.fin a).jlt (JSN.fin b) = decide (a < b) := rfl

@[simp] lemma jge_def (a b : JSN) : a.jge b = b.jle a := rfl

@[simp] lemma jgt_def (a b : JSN) : a.jgt b = b.jlt a := rfl

@[simp] lemma jeq0_fin (a : ℚ) : (JSN.fin a).jeq0 = decide (a = 0) := rfl

@[simp] lemma jsub_fin_fin (a b : ℚ) : (JSN.fin a).jsub (JSN.fin b) = JSN.fin (a - b) := rfl

@[simp] lemma jmul_fin_fin (a b : ℚ) : (JSN.fin a).jmul (JSN.fin b) = JSN.fin (a * b) := rfl

@[simp] lemma jdiv_fin_fin (a b : ℚ) :
    (JSN.fin a).jdiv (JSN.fin b) =
      if b = 0 then (if 0 < a then JSN.posInf else if a < 0 then JSN.negInf else JSN.nan)
      else JSN.fin (a / b) := rfl

@[simp] lemma jround_fin (a : ℚ) : (JSN.fin a).jround = JSN.fin ((Rat.floor (a + 1 / 2) : ℤ) : ℚ) := rfl

@[simp] lemma jabs_fin (a : ℚ) : (JSN.fin a).jabs = JSN.fin |a| := rfl

end JSN

@[simp] lemma category_beq (a b : Category) : (a == b) = decide (a = b) := rfl

lemma stage4_nil (cs : List (String × ℚ × ℚ)) (flag : Bool) : stage4 [] cs flag = ([], flag) := rfl

lemma stage4_nil_catalog (v : JSN) (vs : List JSN) (flag : Bool) :
    stage4 (v :: vs) [] flag = ([], flag) := rfl

lemma stage4_cons (v : JSN) (vs : List JSN) (n : String) (lo hi : ℚ)
    (cs : List (String × ℚ × ℚ)) (flag : Bool) :
    stage4 (v :: vs) ((n, lo, hi) :: cs) flag =
      if v.jeq0 && (decide (lo ≠ 0) || decide (hi ≠ 0)) then
        (⟨Category.yellow, n ++ " (Missing/Defaulted)", JSN.fin 0⟩ :: (stage4 vs cs flag).1,
         (stage4 vs cs flag).2)
      else
        (⟨categorize (calculateDeviation v (JSN.fin lo) (JSN.fin hi)), n,
            calculateDeviation v (JSN.fin lo) (JSN.fin hi)⟩ ::
          (stage4 vs cs
            (flag ||
              (categorize (calculateDeviation v (JSN.fin lo) (JSN.fin hi)) == Category.red))).1,
         (stage4 vs cs
            (flag ||
              (categorize (calculateDeviation v (JSN.fin lo) (JSN.fin hi)) == Category.red))).2) :=
  rfl

/-- The emitted items do not depend on the incoming flag, and the final
flag is the disjunction of the incoming flag with the flag computed from
`false`: the accumulator only ever moves from `false` to `true`. -/
lemma stage4_flag_split : ∀ (vs : List JSN) (cs : List (String × ℚ × ℚ)) (flag : Bool),
    stage4 vs cs flag = ((stage4 vs cs false).1, flag || (stage4 vs cs false).2)
  | [], cs, flag => by simp [stage4_nil]
  | _ :: _, [], flag => by simp [stage4_nil_catalog]
  | v :: vs, (n, lo, hi) :: cs, flag => by
    rw [stage4_cons, stage4_cons]
    by_cases hm : (v.jeq0 && (decide (lo ≠ 0) || decide (hi ≠ 0))) = true
    · rw [if_pos hm, if_pos hm, stage4_flag_split vs cs flag]
      try simp
    · rw [if_neg hm, if_neg hm,
        stage4_flag_split vs cs
          (flag || (categorize (calculateDeviation v (JSN.fin lo) (JSN.fin hi)) == Category.red)),
        stage4_flag_split vs cs
          (false || (categorize (calculateDeviation v (JSN.fin lo) (JSN.fin hi)) == Category.red))]
      try simp [Bool.or_assoc]

/-- Starting from `false`, the final flag is exactly "some emitted item
is Red". -/
lemma stage4_snd_eq_any : ∀ (vs : List JSN) (cs : List (String × ℚ × ℚ)),
    (stage4 vs cs false).2 = (stage4 vs cs false).1.any (fun it => it.category == Category.red)
  | [], cs => by simp [stage4_nil]
  | _ :: _, [] => by simp [stage4_nil_catalog]
  | v :: vs, (n, lo, hi) :: cs => by
    rw [stage4_cons]
    by_cases hm : (v.jeq0 && (decide (lo ≠ 0) || decide (hi ≠ 0))) = true
    · rw [if_pos hm]
      simp [stage4_snd_eq_any vs cs]
    · rw [if_neg hm,
        stage4_flag_split vs cs
          (false || (categorize (calculateDeviation v (JSN.fin lo) (JSN.fin hi)) == Category.red))]
      simp [stage4_snd_eq_any vs cs]

/-- The category chain as a function of a finite deviation value. -/
lemma categorize_fin (q : ℚ) :
    categorize (JSN.fin q) =
      if q = 0 then Category.green
      else if |q| ≤ 5 then Category.yellow
      else if |q| ≤ 20 then Category.redYellow
      else Category.red := by
  unfold categorize
  by_cases h0 : q = 0
  · simp [h0]
  · have habs : 0 < |q| := abs_pos.mpr h0
    by_cases h5 : |q| ≤ 5
    · simp [h0, h5, habs]
    · by_cases h20 : |q| ≤ 20
      · simp [h0, h5, h20, habs]
      · simp [h0, h5, h20, habs]

lemma isEmpty_false_of_ne_nil {files : List UploadedFile} (h : files ≠ []) :
    files.isEmpty = false := by
  cases files with
  | nil => exact absurd rfl h
  | cons a l => rfl

lemma ne_nil_of_filter_pos {p : UploadedFile → Bool} {files : List UploadedFile}
    (h : 0 < (files.filter p).length) : files ≠ [] := by
  rintro rfl
  simp at h

/-- A rejected nonempty batch: immediate deletion of every upload, no
registration, no extraction. -/
lemma uploadFiles_of_reject (files : List UploadedFile) (pdfConv ocr : Nat → Option String)
    (gemini : GeminiResult) (fetchR : FetchResult)
    (h1 : files ≠ []) (h2 : validationRejects files = true) :
    uploadFiles files pdfConv ocr gemini fetchR =
      (Response.validationReject, [], files.map (fun f => f.path)) := by
  simp [uploadFiles, isEmpty_false_of_ne_nil h1, h2]

lemma pipelineBody_ne (files : List UploadedFile) (pdfConv ocr : Nat → Option String)
    (gemini : GeminiResult) (fetchR : FetchResult) :
    (pipelineBody files pdfConv ocr gemini fetchR).1 ≠ Response.validationReject ∧
    (pipelineBody files pdfConv ocr gemini fetchR).1 ≠ Response.noFiles := by
  unfold pipelineBody
  rcases hE : extractLoop pdfConv ocr files 0 (files.map (fun f => f.path)) "" with ⟨reg, t⟩
  rw [hE]
  cases t with
  | none => simp
  | some combined =>
    by_cases ht : (combined.trim == "") = true
    · simp [ht]
    · cases gemini <;> cases fetchR <;> simp [ht]

/-- An admitted batch never sees the two early 400 rejections. -/
lemma uploadFiles_accept (files : List UploadedFile) (pdfConv ocr : Nat → Option String)
    (gemini : GeminiResult) (fetchR : FetchResult)
    (h1 : files ≠ []) (h2 : validationRejects files = false) :
    (uploadFiles files pdfConv ocr gemini fetchR).1 ≠ Response.validationReject ∧
    (uploadFiles files pdfConv ocr gemini fetchR).1 ≠ Response.noFiles := by
  have hb : uploadFiles files pdfConv ocr gemini fetchR =
      pipelineBody files pdfConv ocr gemini fetchR := by
    simp [uploadFiles, isEmpty_false_of_ne_nil h1, h2]
  rw [hb]
  exact pipelineBody_ne files pdfConv ocr gemini fetchR

/-- `calculateDeviation` on finite inputs with a nonzero limit: 0 inside
the (inclusive) range, otherwise the rounded percentage against the
breached bound, with the code's `Math.round(x*10)/10` rounding
(floor of `x*10 + 1/2`, i.e. ties toward positive infinity). -/
lemma calculateDeviation_fin (v lo hi : ℚ) (hlim : (if hi < v then hi else lo) ≠ 0) :
    calculateDeviation (JSN.fin v) (JSN.fin lo) (JSN.fin hi) =
      if lo ≤ v ∧ v ≤ hi then JSN.fin 0
      else JSN.fin
        (((Rat.floor ((v - if hi < v then hi else lo) / (if hi < v then hi else lo) * 100 * 10
            + 1 / 2) : ℤ) : ℚ) / 10) := by
  unfold calculateDeviation
  by_cases hin : lo ≤ v ∧ v ≤ hi
  · have hb : ((JSN.fin v).jge (JSN.fin lo) && (JSN.fin v).jle (JSN.fin hi)) = true := by
      simp [hin.1, hin.2]
    rw [if_pos hb, if_pos hin]
  · have hb : ¬(((JSN.fin v).jge (JSN.fin lo) && (JSN.fin v).jle (JSN.fin hi)) = true) := by
      rcases not_and_or.mp hin with h | h <;> simp [h]
    rw [if_neg hb, if_neg hin]
    by_cases hgt : hi < v
    · have hz : hi ≠ 0 := by simpa [if_pos hgt] using hlim
      simp [hgt, hz]
    · have hz : lo ≠ 0 := by simpa [if_neg hgt] using hlim
      simp [hgt, hz]

/-- Stage 4 emits exactly `min vs.length cs.length` items, and the item
at every processed position is named after the catalog field at that
position (possibly with the missing suffix). -/
lemma stage4_order : ∀ (vs : List JSN) (cs : List (String × ℚ × ℚ)) (flag : Bool),
    (stage4 vs cs flag).1.length = min vs.length cs.length ∧
    ∀ i : Nat,
      ((stage4 vs cs flag).1.getD i dItem).name = (cs.getD i dField).1 ∨
      ((stage4 vs cs flag).1.getD i dItem).name = (cs.getD i dField).1 ++ " (Missing/Defaulted)" ∨
      min vs.length cs.length ≤ i
  | [], cs, flag => by
      refine ⟨by simp [stage4_nil], fun i => ?_⟩
      right; right; simp
  | v :: vs, [], flag => by
      refine ⟨by simp [stage4_nil_catalog], fun i => ?_⟩
      right; right; simp
  | v :: vs, (n, lo, hi) :: cs, flag => by
      rw [stage4_cons]
      by_cases hm : (v.jeq0 && (decide (lo ≠ 0) || decide (hi ≠ 0))) = true
      · rw [if_pos hm]
        refine ⟨by simpa [Nat.succ_min_succ] using (stage4_order vs cs flag).1, fun i => ?_⟩
        cases i with
        | zero => right; left; simp
        | succ j =>
          rcases (stage4_order vs cs flag).2 j with h | h | h
          · left; simpa using h
          · right; left; simpa using h
          · right; right; simpa [Nat.succ_min_succ] using h
      · rw [if_neg hm]
        refine ⟨by simpa [Nat.succ_min_succ] using
          (stage4_order vs cs
            (flag ||
              (categorize (calculateDeviation v (JSN.fin lo) (JSN.fin hi)) == Category.red))).1,
          fun i => ?_⟩
        cases i with
        | zero => left; simp
        | succ j =>
          rcases (stage4_order vs cs
              (flag ||
                (categorize (calculateDeviation v (JSN.fin lo) (JSN.fin hi)) ==
                  Category.red))).2 j with h | h | h
          · left; simpa using h
          · right; left; simpa using h
          · right; right; simpa [Nat.succ_min_succ] using h

/-- The scoring relay's effect on the pipeline: a non-2xx response is
indistinguishable from a clean 2xx (logged only), while a network error
or a malformed 2xx body turns an otherwise-successful run into the
catch-all server error. -/
lemma pipelineBody_relay (files : List UploadedFile) (pdfConv ocr : Nat → Option String)
    (gemini : GeminiResult) :
    pipelineBody files pdfConv ocr gemini FetchResult.httpErr =
      pipelineBody files pdfConv ocr gemini FetchResult.okParsed ∧
    ∀ fl it b,
      (pipelineBody files pdfConv ocr gemini FetchResult.okParsed).1 =
          Response.analysis fl it b →
        (pipelineBody files pdfConv ocr gemini FetchResult.netErr).1 = Response.serverError ∧
        (pipelineBody files pdfConv ocr gemini FetchResult.okMalformed).1 =
          Response.serverError := by
  unfold pipelineBody
  rcases hE : extractLoop pdfConv ocr files 0 (files.map (fun f => f.path)) "" with ⟨reg, t⟩
  rw [hE]
  cases t with
  | none => exact ⟨rfl, fun fl it b h => absurd h (by simp)⟩
  | some combined =>
    dsimp only
    by_cases ht : (combined.trim == "") = true
    · simp [ht]
    · cases gemini with
      | throwsErr => exact ⟨rfl, fun fl it b h => absurd h (by simp [ht])⟩
      | parseErr => exact ⟨rfl, fun fl it b h => absurd h (by simp [ht])⟩
      | features fs =>
        refine ⟨rfl, fun fl it b h => ⟨?_, ?_⟩⟩ <;> simp [ht]

/-- The missing-value branch of Stage 4: a 0 value against a range with
a nonzero bound emits the suffixed Yellow item with deviation 0 and
leaves the flag and the rest of the loop untouched. -/
lemma stage4_missing_head (n : String) (lo hi : ℚ) (vs : List JSN)
    (cs : List (String × ℚ × ℚ)) (flag : Bool) (h : lo ≠ 0 ∨ hi ≠ 0) :
    stage4 (JSN.fin 0 :: vs) ((n, lo, hi) :: cs) flag =
      (⟨Category.yellow, n ++ " (Missing/Defaulted)", JSN.fin 0⟩ :: (stage4 vs cs flag).1,
       (stage4 vs cs flag).2) := by
  rw [stage4_cons, if_pos]
  rcases h with h | h <;> simp [h]

/-- C3 counterexample: the claim's "round half away from zero" reading
of the rounding is false on the code.  Value 3750 against the catalog's
WBC range [4000, 11000] (every intermediate double is exact here, so
the rational model agrees with binary64): the code's
`Math.round(-62.5)/10` gives -6.2, while rounding half away from zero
gives -6.3. -/
theorem C3_deviation_counterexample :
    NORMAL_RANGES.getD 8 dField = ("WBC/TLC Count (/cumm)", 4000, 11000) ∧
    calculateDeviation (JSN.fin 3750) (JSN.fin 4000) (JSN.fin 11000) = JSN.fin (-(31 / 5)) ∧
    round1Spec ((3750 - 4000) / 4000 * 100) = -(63 / 10) ∧
    (-(31 / 5) : ℚ) ≠ -(63 / 10) :=
  ⟨by with_unfolding_all rfl, by with_unfolding_all rfl, by with_unfolding_all rfl,
   by with_unfolding_all decide⟩

/-- C3 (amended): an in-range value (inclusive on both ends) yields
deviation 0; an out-of-range value yields
`Math.round((v - limit)/limit * 100 * 10)/10` with `limit` the breached
bound, where `Math.round` rounds half toward positive infinity (not
half away from zero); the spec's three worked examples hold. -/
theorem C3_deviation_amended (v lo hi : ℚ) (hlim : (if hi < v then hi else lo) ≠ 0) :
    (calculateDeviation (JSN.fin v) (JSN.fin lo) (JSN.fin hi) =
      if lo ≤ v ∧ v ≤ hi then JSN.fin 0
      else JSN.fin
        (((Rat.floor ((v - if hi < v then hi else lo) / (if hi < v then hi else lo) * 100 * 10
            + 1 / 2) : ℤ) : ℚ) / 10)) ∧
    calculateDeviation (JSN.fin 13.5) (JSN.fin 12) (JSN.fin 16) = JSN.fin 0 ∧
    calculateDeviation (JSN.fin 17) (JSN.fin 12) (JSN.fin 16) = JSN.fin (63 / 10) ∧
    calculateDeviation (JSN.fin 10) (JSN.fin 12) (JSN.fin 16) = JSN.fin (-(167 / 10)) :=
  ⟨calculateDeviation_fin v lo hi hlim, by with_unfolding_all rfl, by with_unfolding_all rfl,
   by with_unfolding_all rfl⟩

/-- Witness for C3 (amended) at value 13.5 against [12, 16]. -/
theorem C3_deviation_amended_witness :
    calculateDeviation (JSN.fin 13.5) (JSN.fin 12) (JSN.fin 16) = JSN.fin 0 :=
  (C3_deviation_amended 13.5 12 16 (by with_unfolding_all decide)).2.1

/-- C4: the category of a finite deviation follows the claimed
thresholds (Green at 0, Yellow up to 5, Red-Yellow up to 20, Red
beyond), and the batch flag equals "some emitted item is Red": it
starts false, is never unset once set, and stays false absent a Red
item. -/
theorem C4_categorization_triage (q : ℚ) (vs : List JSN) (cs : List (String × ℚ × ℚ)) :
    categorize (JSN.fin q) =
      (if q = 0 then Category.green
       else if |q| ≤ 5 then Category.yellow
       else if |q| ≤ 20 then Category.redYellow
       else Category.red) ∧
    (stage4 vs cs false).2 =
      (stage4 vs cs false).1.any (fun it => it.category == Category.red) ∧
    (stage4 vs cs true).2 = true :=
  ⟨categorize_fin q, stage4_snd_eq_any vs cs, by rw [stage4_flag_split]; simp⟩

/-- C5: a 0 value against a range that is not [0, 0] short-circuits to
a Yellow item named with the " (Missing/Defaulted)" suffix and
deviation 0, skipping the deviation formula for that field. -/
theorem C5_missing_value_rule (n : String) (lo hi : ℚ) (vs : List JSN)
    (cs : List (String × ℚ × ℚ)) (flag : Bool) (h : lo ≠ 0 ∨ hi ≠ 0) :
    stage4 (JSN.fin 0 :: vs) ((n, lo, hi) :: cs) flag =
      (⟨Category.yellow, n ++ " (Missing/Defaulted)", JSN.fin 0⟩ :: (stage4 vs cs flag).1,
       (stage4 vs cs flag).2) :=
  stage4_missing_head n lo hi vs cs flag h

/-- Witness for C5 at value 0 against the Platelet range [150, 450]. -/
theorem C5_missing_value_rule_witness :
    stage4 [JSN.fin 0] [("Platelet Count (x10^3/uL)", 150, 450)] false =
      ([⟨Category.yellow, "Platelet Count (x10^3/uL) (Missing/Defaulted)", JSN.fin 0⟩],
       false) := by
  have h := C5_missing_value_rule "Platelet Count (x10^3/uL)" 150 450 [] [] false
    (Or.inl (by norm_num))
  exact h.trans (by with_unfolding_all rfl)

/-- C6 counterexample: the claim says a 0 value against the Basophils
range [0, 1] is treated as a real in-range reading (Green, no suffix);
on the code the missing-value condition `lower != 0 || upper != 0`
holds for [0, 1], so the emitted item is the suffixed Yellow one. -/
theorem C6_zero_basophils_counterexample :
    NORMAL_RANGES.getD 13 dField = ("Basophils (%)", 0, 1) ∧
    (stage4 [JSN.fin 0] [("Basophils (%)", 0, 1)] false).1 =
      [⟨Category.yellow, "Basophils (%) (Missing/Defaulted)", JSN.fin 0⟩] ∧
    ((stage4 [JSN.fin 0] [("Basophils (%)", 0, 1)] false).1.getD 0 dItem).category ≠
      Category.green :=
  ⟨by with_unfolding_all rfl, by with_unfolding_all rfl, by with_unfolding_all decide⟩

/-- C6 (amended): a 0 value escapes the missing-value rule only when
the range is exactly [0, 0] (then it is in-range and Green, unsuffixed);
against [0, hi] with hi nonzero — e.g. Basophils [0, 1] — the
missing-value rule fires and yields the suffixed Yellow item. -/
theorem C6_zero_range_amended (n : String) (hi : ℚ) (vs : List JSN)
    (cs : List (String × ℚ × ℚ)) (flag : Bool) :
    (hi ≠ 0 →
      stage4 (JSN.fin 0 :: vs) ((n, 0, hi) :: cs) flag =
        (⟨Category.yellow, n ++ " (Missing/Defaulted)", JSN.fin 0⟩ :: (stage4 vs cs flag).1,
         (stage4 vs cs flag).2)) ∧
    stage4 (JSN.fin 0 :: vs) ((n, 0, 0) :: cs) flag =
      (⟨Category.green, n, JSN.fin 0⟩ :: (stage4 vs cs flag).1, (stage4 vs cs flag).2) := by
  constructor
  · intro h
    exact stage4_missing_head n 0 hi vs cs flag (Or.inr h)
  · rw [stage4_cons, if_neg (by simp)]
    have hd : calculateDeviation (JSN.fin 0) (JSN.fin 0) (JSN.fin 0) = JSN.fin 0 := by
      with_unfolding_all rfl
    have hc : categorize (JSN.fin 0) = Category.green := by with_unfolding_all rfl
    rw [hd, hc]
    simp

/-- Witness for C6 (amended) at the Basophils range [0, 1]. -/
theorem C6_zero_range_amended_witness :
    stage4 [JSN.fin 0] [("Basophils (%)", 0, 1)] false =
      ([⟨Category.yellow, "Basophils (%) (Missing/Defaulted)", JSN.fin 0⟩], false) := by
  have h := (C6_zero_range_amended "Basophils (%)" 1 [] [] false).1 (by norm_num)
  exact h.trans (by with_unfolding_all rfl)

/-- C10: a negative value against Basophils [0, 1] drives the deviation
formula through a division by the zero lower bound: the deviation is
`-Infinity` (not finite), its magnitude exceeds every finite threshold,
the field is categorised Red, and the batch flag is set. -/
theorem C10_div_zero_red :
    calculateDeviation (JSN.fin (-1)) (JSN.fin 0) (JSN.fin 1) = JSN.negInf ∧
    (∀ q : ℚ, (JSN.jabs JSN.negInf).jgt (JSN.fin q) = true) ∧
    categorize JSN.negInf = Category.red ∧
    (stage4 demoVector NORMAL_RANGES false).2 = true ∧
    (stage4 demoVector NORMAL_RANGES false).1.getD 13 dItem =
      ⟨Category.red, "Basophils (%)", JSN.negInf⟩ :=
  ⟨by with_unfolding_all rfl, fun q => rfl, by with_unfolding_all rfl,
   by with_unfolding_all rfl, by with_unfolding_all rfl⟩

/-- C8: the analyzer loop runs exactly over positions
0 .. min(featureVector.length, catalog.length) - 1, emitting one item
per position in that order; the i-th item's name is the i-th catalog
field's name, possibly with the missing suffix — the catalog order is
never permuted. -/
theorem C8_order_invariant (vs : List JSN) (cs : List (String × ℚ × ℚ)) (flag : Bool) :
    (stage4 vs cs flag).1.length = min vs.length cs.length ∧
    ∀ i : Nat,
      ((stage4 vs cs flag).1.getD i dItem).name = (cs.getD i dField).1 ∨
      ((stage4 vs cs flag).1.getD i dItem).name =
        (cs.getD i dField).1 ++ " (Missing/Defaulted)" ∨
      min vs.length cs.length ≤ i :=
  stage4_order vs cs flag

/-- C7: the admission policy — the empty batch and any batch with more
than one PDF, more than three images, or a PDF mixed with an image are
rejected with every file unlinked immediately and nothing registered or
extracted (the result does not consult any collaborator); a batch of
exactly three images and a batch of exactly one PDF pass validation. -/
theorem C7_validation_policy :
    (∀ (pdfConv ocr : Nat → Option String) (gemini : GeminiResult) (fetchR : FetchResult),
        (uploadFiles [] pdfConv ocr gemini fetchR).1 = Response.noFiles) ∧
    (∀ files (pdfConv ocr : Nat → Option String) (gemini : GeminiResult)
        (fetchR : FetchResult), 1 < (pdfFilesOf files).length →
        uploadFiles files pdfConv ocr gemini fetchR =
          (Response.validationReject, [], files.map (fun f => f.path))) ∧
    (∀ files (pdfConv ocr : Nat → Option String) (gemini : GeminiResult)
        (fetchR : FetchResult), 3 < (imageFilesOf files).length →
        uploadFiles files pdfConv ocr gemini fetchR =
          (Response.validationReject, [], files.map (fun f => f.path))) ∧
    (∀ files (pdfConv ocr : Nat → Option String) (gemini : GeminiResult)
        (fetchR : FetchResult),
        0 < (pdfFilesOf files).length → 0 < (imageFilesOf files).length →
        uploadFiles files pdfConv ocr gemini fetchR =
          (Response.validationReject, [], files.map (fun f => f.path))) ∧
    (∀ files (pdfConv ocr : Nat → Option String) (gemini : GeminiResult)
        (fetchR : FetchResult), files.length = 3 →
        (∀ f ∈ files, f.mimetype.startsWith "image/" = true) →
        (uploadFiles files pdfConv ocr gemini fetchR).1 ≠ Response.validationReject ∧
        (uploadFiles files pdfConv ocr gemini fetchR).1 ≠ Response.noFiles) ∧
    (∀ f (pdfConv ocr : Nat → Option String) (gemini : GeminiResult) (fetchR : FetchResult),
        f.mimetype = "application/pdf" →
        (uploadFiles [f] pdfConv ocr gemini fetchR).1 ≠ Response.validationReject ∧
        (uploadFiles [f] pdfConv ocr gemini fetchR).1 ≠ Response.noFiles) := by
  refine ⟨fun _ _ _ _ => rfl, ?_, ?_, ?_, ?_, ?_⟩
  · intro files pdfConv ocr gemini fetchR h
    have h0 : 0 < (pdfFilesOf files).length := by omega
    exact uploadFiles_of_reject files pdfConv ocr gemini fetchR (ne_nil_of_filter_pos h0)
      (by simp [validationRejects, h])
  · intro files pdfConv ocr gemini fetchR h
    have h0 : 0 < (imageFilesOf files).length := by omega
    exact uploadFiles_of_reject files pdfConv ocr gemini fetchR (ne_nil_of_filter_pos h0)
      (by simp [validationRejects, h])
  · intro files pdfConv ocr gemini fetchR hp hi
    exact uploadFiles_of_reject files pdfConv ocr gemini fetchR (ne_nil_of_filter_pos hp)
      (by simp [validationRejects, hp, hi])
  · intro files pdfConv ocr gemini fetchR hlen hall
    have hpdf : pdfFilesOf files = [] := by
      unfold pdfFilesOf
      rw [List.filter_eq_nil_iff]
      intro f hf hbeq
      have hmt : f.mimetype = "application/pdf" := by simpa using hbeq
      have h2 := hall f hf
      rw [hmt] at h2
      have h3 : ("application/pdf".startsWith "image/") = false := by
        with_unfolding_all decide
      rw [h3] at h2
      cases h2
    have himg : imageFilesOf files = files := by
      unfold imageFilesOf
      exact List.filter_eq_self.mpr hall
    have hv : validationRejects files = false := by
      simp [validationRejects, hpdf, himg, hlen]
    have hne : files ≠ [] := by
      rintro rfl
      simp at hlen
    exact uploadFiles_accept files pdfConv ocr gemini fetchR hne hv
  · intro f pdfConv ocr gemini fetchR hmt
    have hsw : (f.mimetype.startsWith "image/") = false := by
      rw [hmt]
      with_unfolding_all decide
    have himg : imageFilesOf [f] = [] := by simp [imageFilesOf, hsw]
    have hpdf : (pdfFilesOf [f]).length = 1 := by simp [pdfFilesOf, hmt]
    have hv : validationRejects [f] = false := by simp [validationRejects, himg, hpdf]
    exact uploadFiles_accept [f] pdfConv ocr gemini fetchR (by simp) hv

/-- Witness for C7: a 2-PDF batch is rejected with both files unlinked. -/
theorem C7_validation_policy_witness :
    uploadFiles [pdfFileA, pdfFileB] demoPdfConv demoOcr demoGemini FetchResult.okParsed =
      (Response.validationReject, [], ["uploads/p1.pdf", "uploads/p2.pdf"]) := by
  have h := C7_validation_policy.2.1 [pdfFileA, pdfFileB] demoPdfConv demoOcr demoGemini
    FetchResult.okParsed (by with_unfolding_all decide)
  exact h.trans (by with_unfolding_all rfl)

/-- C9: a nonempty batch in which no file has an image mime type and no
file has the PDF mime type passes validation whatever its size — such
files count toward neither limit and can never cause rejection. -/
theorem C9_other_mimetypes_accept (files : List UploadedFile)
    (h1 : files ≠ [])
    (h2 : ∀ f ∈ files, f.mimetype.startsWith "image/" = false ∧
      (f.mimetype == "application/pdf") = false) :
    validationRejects files = false ∧
    ∀ (pdfConv ocr : Nat → Option String) (gemini : GeminiResult) (fetchR : FetchResult),
      (uploadFiles files pdfConv ocr gemini fetchR).1 ≠ Response.validationReject ∧
      (uploadFiles files pdfConv ocr gemini fetchR).1 ≠ Response.noFiles := by
  have himg : imageFilesOf files = [] := by
    unfold imageFilesOf
    rw [List.filter_eq_nil_iff]
    intro f hf hsw
    rw [(h2 f hf).1] at hsw
    cases hsw
  have hpdf : pdfFilesOf files = [] := by
    unfold pdfFilesOf
    rw [List.filter_eq_nil_iff]
    intro f hf hbeq
    rw [(h2 f hf).2] at hbeq
    cases hbeq
  have hv : validationRejects files = false := by simp [validationRejects, himg, hpdf]
  exact ⟨hv, fun pdfConv ocr gemini fetchR =>
    uploadFiles_accept files pdfConv ocr gemini fetchR h1 hv⟩

/-- Witness for C9: five text/plain files pass validation. -/
theorem C9_other_mimetypes_accept_witness :
    validationRejects [txtFile, txtFile, txtFile, txtFile, txtFile] = false :=
  (C9_other_mimetypes_accept [txtFile, txtFile, txtFile, txtFile, txtFile]
    (by simp) (by with_unfolding_all decide)).1

/-- C1 counterexample: with identical collaborator outcomes up to the
scoring relay, a network error in the relay's POST flips the
caller-visible response from the 200 analysis payload to the 500 server
error — so the POST's outcome does affect the pipeline's outcome, and a
network error there is not caught-and-logged-only. -/
theorem C1_relay_counterexample :
    (uploadFiles [demoFile] demoPdfConv demoOcr demoGemini FetchResult.netErr).1 =
      Response.serverError ∧
    (uploadFiles [demoFile] demoPdfConv demoOcr demoGemini FetchResult.okParsed).1 =
      Response.analysis [("a.png", 100)]
        [⟨Category.green, "Hemoglobin (g/dL)", JSN.fin 0⟩] false ∧
    Response.serverError ≠
      Response.analysis [("a.png", 100)]
        [⟨Category.green, "Hemoglobin (g/dL)", JSN.fin 0⟩] false :=
  ⟨by with_unfolding_all rfl, by with_unfolding_all rfl, by with_unfolding_all decide⟩

/-- C1 (amended): only a non-2xx HTTP status from the scoring relay is
logged-only and indistinguishable from a clean 2xx; a network error or
a malformed 2xx body escapes to the pipeline's catch-all, turning an
otherwise-successful run into the 500 server error (with cleanup). -/
theorem C1_scoring_relay_amended (files : List UploadedFile)
    (pdfConv ocr : Nat → Option String) (gemini : GeminiResult) :
    uploadFiles files pdfConv ocr gemini FetchResult.httpErr =
      uploadFiles files pdfConv ocr gemini FetchResult.okParsed ∧
    ∀ fl it b,
      (uploadFiles files pdfConv ocr gemini FetchResult.okParsed).1 =
          Response.analysis fl it b →
        (uploadFiles files pdfConv ocr gemini FetchResult.netErr).1 = Response.serverError ∧
        (uploadFiles files pdfConv ocr gemini FetchResult.okMalformed).1 =
          Response.serverError := by
  by_cases h1 : files.isEmpty = true
  · refine ⟨by simp [uploadFiles, h1], fun fl it b hr => absurd hr ?_⟩
    simp [uploadFiles, h1]
  · by_cases h2 : validationRejects files = true
    · refine ⟨by simp [uploadFiles, h1, h2], fun fl it b hr => absurd hr ?_⟩
      simp [uploadFiles, h1, h2]
    · have hb : ∀ fetchR, uploadFiles files pdfConv ocr gemini fetchR =
          pipelineBody files pdfConv ocr gemini fetchR := fun fetchR => by
        simp [uploadFiles, h1, h2]
      simp only [hb]
      exact pipelineBody_relay files pdfConv ocr gemini

/-- Witness for C1 (amended): the concrete single-image run again. -/
theorem C1_scoring_relay_amended_witness :
    (uploadFiles [demoFile] demoPdfConv demoOcr demoGemini FetchResult.netErr).1 =
      Response.serverError :=
  ((C1_scoring_relay_amended [demoFile] demoPdfConv demoOcr demoGemini).2
    [("a.png", 100)] [⟨Category.green, "Hemoglobin (g/dL)", JSN.fin 0⟩] false
    (by with_unfolding_all rfl)).1

/-- C2: on the NoTextExtracted exit path the registered files are not
deleted.  A batch holding a single PDF whose rasterisation fails takes
that path: the run ends with the 400 "no text" response, the original
upload still in the cleanup registry, and the unlink list empty — the
early `return` at the no-text check bypasses the cleanup loop, so the
claim's "deleted on every exit path" fails exactly here. -/
theorem C2_noText_cleanup_leak :
    uploadFiles [leakFile] (fun _ => none) (fun _ => none) (GeminiResult.features [])
      FetchResult.okParsed = (Response.noText, ["uploads/x.pdf"], []) ∧
    "uploads/x.pdf" ∉ ([] : List String) :=
  ⟨by with_unfolding_all rfl, by simp⟩
